import Mathlib

/-!
Verification of the resilient remote-image-generation client
(`services/geminiService.ts` and the scheduling logic of `App.tsx`).

The TypeScript source is shallowly embedded: pure helpers become Lean
functions, the remote backend becomes an explicit oracle parameter
(indexed by the number of backend calls already issued in the session),
thrown errors become `Except` values, and the React component state
becomes an explicit record that handlers transform.  JavaScript strings
are modelled as Lean `String`, `JSON.parse` by an executable fuel-based
parser over a `Json` inductive (numbers are modelled as integers; the
backend error payloads relevant here carry only integer codes), and
non-`Error` thrown values are modelled as JSON-serializable values.
-/

/- ### String helpers (JavaScript `includes`, `toLowerCase`) -/

/-- Boolean list-prefix test on characters. -/
def charsPrefix : List Char → List Char → Bool
  | [], _ => true
  | _ :: _, [] => false
  | a :: as, b :: bs => a == b && charsPrefix as bs

/-- Boolean substring test: does `text` contain `pat` as a contiguous run? -/
def charsContains : List Char → List Char → Bool
  | [], pat => pat.isEmpty
  | c :: rest, pat => charsPrefix pat (c :: rest) || charsContains rest pat

/-- Model of JavaScript `s.includes(pat)`. -/
def strContains (s pat : String) : Bool :=
  charsContains s.toList pat.toList

/-- Model of JavaScript `s.toLowerCase()` (ASCII case mapping; all strings
the program lower-cases contain no upper-case letters outside ASCII). -/
def strToLower (s : String) : String :=
  String.mk (s.toList.map Char.toLower)

/- ### JSON values, parsing (`JSON.parse`) and serialization (`JSON.stringify`) -/

/-- JSON values.  Numbers are modelled as integers: the error payloads the
program decodes carry only integer `code` fields such as `429`. -/
inductive Json where
  | null : Json
  | bool : Bool → Json
  | num : Int → Json
  | str : String → Json
  | arr : List Json → Json
  | obj : List (String × Json) → Json

/-- The character `\x7b` (opening curly bracket). -/
def lbrace : Char := Char.ofNat 123

/-- The character `\x7d` (closing curly bracket). -/
def rbrace : Char := Char.ofNat 125

def jsonWsChar (c : Char) : Bool :=
  c == ' ' || c == '\t' || c == '\n' || c == '\r'

def skipWs (cs : List Char) : List Char :=
  cs.dropWhile jsonWsChar

/-- Decode a JSON string escape character. -/
def escChar (e : Char) : Option Char :=
  if e == '"' then some '"'
  else if e == '\\' then some '\\'
  else if e == '/' then some '/'
  else if e == 'n' then some '\n'
  else if e == 't' then some '\t'
  else if e == 'r' then some '\r'
  else if e == 'b' then some (Char.ofNat 8)
  else if e == 'f' then some (Char.ofNat 12)
  else none

/-- Parse the body of a JSON string after the opening quote; returns the
decoded characters and the rest of the input. -/
def parseStrBody : Nat → List Char → Option (List Char × List Char)
  | 0, _ => none
  | _ + 1, [] => none
  | fuel + 1, c :: rest =>
    if c == '"' then some ([], rest)
    else if c == '\\' then
      match rest with
      | [] => none
      | e :: rest2 =>
        match escChar e with
        | none => none
        | some d =>
          match parseStrBody fuel rest2 with
          | none => none
          | some (s, r) => some (d :: s, r)
    else
      match parseStrBody fuel rest with
      | none => none
      | some (s, r) => some (c :: s, r)

def digitsVal (ds : List Char) : Nat :=
  ds.foldl (fun acc c => acc * 10 + (c.toNat - 48)) 0

def mkJsonNum (neg : Bool) (ds : List Char) : Json :=
  Json.num (if neg then -(Int.ofNat (digitsVal ds)) else Int.ofNat (digitsVal ds))

/-- Parse a JSON integer literal (fractional or exponent forms are outside
the modelled fragment and fail). -/
def parseNum (cs : List Char) : Option (Json × List Char) :=
  let p := match cs with
    | '-' :: rest => (true, rest)
    | _ => (false, cs)
  let ds := p.2.takeWhile Char.isDigit
  let r := p.2.dropWhile Char.isDigit
  match ds with
  | [] => none
  | d0 :: drest =>
    if d0 == '0' && !drest.isEmpty then none
    else
      match r with
      | c :: _ =>
        if c == '.' || c == 'e' || c == 'E' then none
        else some (mkJsonNum p.1 ds, r)
      | [] => some (mkJsonNum p.1 ds, r)

/-- Expect a fixed literal run of characters. -/
def expectLit : List Char → List Char → Option (List Char)
  | [], cs => some cs
  | _ :: _, [] => none
  | e :: es, c :: cs => if c == e then expectLit es cs else none

mutual

/-- Parse one JSON value (fuel-based recursion). -/
def parseValue : Nat → List Char → Option (Json × List Char)
  | 0, _ => none
  | fuel + 1, cs0 =>
    match skipWs cs0 with
    | [] => none
    | c :: rest =>
      if c == '"' then
        match parseStrBody (rest.length + 1) rest with
        | some (s, r) => some (Json.str (String.mk s), r)
        | none => none
      else if c == 't' then
        match expectLit ['r', 'u', 'e'] rest with
        | some r => some (Json.bool true, r)
        | none => none
      else if c == 'f' then
        match expectLit ['a', 'l', 's', 'e'] rest with
        | some r => some (Json.bool false, r)
        | none => none
      else if c == 'n' then
        match expectLit ['u', 'l', 'l'] rest with
        | some r => some (Json.null, r)
        | none => none
      else if c == '[' then
        let r0 := skipWs rest
        if r0.head? == some ']' then some (Json.arr [], r0.tail)
        else
          match parseArrItems fuel rest with
          | some (xs, r) => some (Json.arr xs, r)
          | none => none
      else if c == lbrace then
        let r0 := skipWs rest
        if r0.head? == some rbrace then some (Json.obj [], r0.tail)
        else
          match parseObjItems fuel rest with
          | some (fs, r) => some (Json.obj fs, r)
          | none => none
      else if c == '-' || c.isDigit then parseNum (c :: rest)
      else none

/-- Parse the comma-separated items of a JSON array after `[`. -/
def parseArrItems : Nat → List Char → Option (List Json × List Char)
  | 0, _ => none
  | fuel + 1, cs =>
    match parseValue fuel cs with
    | none => none
    | some (v, r) =>
      match skipWs r with
      | [] => none
      | c :: r2 =>
        if c == ',' then
          match parseArrItems fuel r2 with
          | some (vs, r3) => some (v :: vs, r3)
          | none => none
        else if c == ']' then some ([v], r2)
        else none

/-- Parse the comma-separated fields of a JSON object after the opening
curly bracket. -/
def parseObjItems : Nat → List Char → Option (List (String × Json) × List Char)
  | 0, _ => none
  | fuel + 1, cs =>
    match skipWs cs with
    | [] => none
    | c :: r0 =>
      if c == '"' then
        match parseStrBody (r0.length + 1) r0 with
        | none => none
        | some (k, r1) =>
          match skipWs r1 with
          | [] => none
          | c2 :: r2 =>
            if c2 == ':' then
              match parseValue fuel r2 with
              | none => none
              | some (v, r3) =>
                match skipWs r3 with
                | [] => none
                | c3 :: r4 =>
                  if c3 == ',' then
                    match parseObjItems fuel r4 with
                    | some (fs, r5) => some ((String.mk k, v) :: fs, r5)
                    | none => none
                  else if c3 == rbrace then some ([(String.mk k, v)], r4)
                  else none
            else none
      else none

end

/-- Model of `JSON.parse` restricted to the fragment above: returns `none`
exactly when parsing fails (the source wraps the call in `try`/`catch`). -/
def jsonParse (s : String) : Option Json :=
  match parseValue (2 * s.length + 4) s.toList with
  | some (v, r) => if (skipWs r).isEmpty then some v else none
  | none => none

def escapeJsonChar (c : Char) : List Char :=
  if c == '"' then ['\\', '"']
  else if c == '\\' then ['\\', '\\']
  else if c == '\n' then ['\\', 'n']
  else if c == '\t' then ['\\', 't']
  else if c == '\r' then ['\\', 'r']
  else [c]

def escapeJsonStr (s : String) : String :=
  String.mk (s.toList.flatMap escapeJsonChar)

mutual

/-- Model of `JSON.stringify` on the modelled JSON fragment. -/
def jsonStringify : Json → String
  | Json.null => "null"
  | Json.bool true => "true"
  | Json.bool false => "false"
  | Json.num n => toString n
  | Json.str s => "\"" ++ escapeJsonStr s ++ "\""
  | Json.arr xs => "[" ++ String.intercalate "," (stringifyList xs) ++ "]"
  | Json.obj fs =>
    String.mk [lbrace] ++ String.intercalate "," (stringifyFields fs) ++ String.mk [rbrace]

def stringifyList : List Json → List String
  | [] => []
  | x :: xs => jsonStringify x :: stringifyList xs

def stringifyFields : List (String × Json) → List String
  | [] => []
  | (k, v) :: fs =>
    ("\"" ++ escapeJsonStr k ++ "\":" ++ jsonStringify v) :: stringifyFields fs

end

mutual

/-- JavaScript `String(·)` coercion on the modelled JSON fragment. -/
def jsToString : Json → String
  | Json.null => "null"
  | Json.bool true => "true"
  | Json.bool false => "false"
  | Json.num n => toString n
  | Json.str s => s
  | Json.arr xs => String.intercalate "," (jsToStringList xs)
  | Json.obj _ => "[object Object]"

def jsToStringList : List Json → List String
  | [] => []
  | x :: xs => jsToString x :: jsToStringList xs

end

/-- Last-occurrence field lookup: `JSON.parse` keeps the last duplicate key,
so property access on the decoded object sees the last binding. -/
def lookupLast : List (String × Json) → String → Option Json
  | [], _ => none
  | (k', v) :: rest, k =>
    match lookupLast rest k with
    | some r => some r
    | none => if k' == k then some v else none

/-- JavaScript optional-chained property access `j?.k`: objects expose their
fields, every other value (and `null`) yields `undefined`, modelled `none`. -/
def jsGetField : Json → String → Option Json
  | Json.obj fields, k => lookupLast fields k
  | _, _ => none

/-- Two-step optional-chained access `j?.k1?.k2`. -/
def jsGetField2 (j : Json) (k1 k2 : String) : Option Json :=
  (jsGetField j k1).bind (fun x => jsGetField x k2)

/-- JavaScript strict equality `=== "s"` against a string literal. -/
def isStrEq (j : Option Json) (s : String) : Bool :=
  match j with
  | some (Json.str t) => t == s
  | _ => false

/-- JavaScript strict equality `=== n` against an integer literal. -/
def isNumEq (j : Option Json) (n : Int) : Bool :=
  match j with
  | some (Json.num m) => m == n
  | _ => false

/-- JavaScript truthiness of a JSON value. -/
def jsonTruthy : Json → Bool
  | Json.null => false
  | Json.bool b => b
  | Json.num n => n != 0
  | Json.str s => s != ""
  | Json.arr _ => true
  | Json.obj _ => true

/- ### Error Normalizer (`parseApiError`) -/

/-- A thrown value as it reaches `parseApiError`: either an `Error` object
carrying a message, or a non-`Error` JSON-serializable value. -/
inductive ErrVal where
  | errObj : String → ErrVal
  | nonError : Json → ErrVal

/-- The `error instanceof Error ? error.message : JSON.stringify(error)`
step of `parseApiError`. -/
def errMessageOf : ErrVal → String
  | ErrVal.errObj msg => msg
  | ErrVal.nonError v => jsonStringify v

/-- The fixed user-facing quota message returned by `parseApiError`. -/
def quotaMessage : String := "Bugünkü limitimiz doldu. Lütfen yarın tekrar deneyiniz."

/-- The resource-exhaustion test of `parseApiError`:
`errorData?.error?.status === 'RESOURCE_EXHAUSTED' || errorData?.error?.code === 429`. -/
def isQuotaData (j : Json) : Bool :=
  isStrEq (jsGetField2 j "error" "status") "RESOURCE_EXHAUSTED" ||
    isNumEq (jsGetField2 j "error" "code") 429

/-- Embedding of `parseApiError` from `services/geminiService.ts`. -/
def parseApiError (error : ErrVal) : String :=
  let errorMessage := errMessageOf error
  match jsonParse errorMessage with
  | some errorData =>
    if isQuotaData errorData then quotaMessage
    else
      match jsGetField2 errorData "error" "message" with
      | some m => if jsonTruthy m then jsToString m else errorMessage
      | none => errorMessage
  | none => errorMessage

/- ### Response Classifier (`processGeminiResponse`) -/

/-- An inline image payload of a response part. -/
structure InlineData where
  mimeType : String
  data : String

/-- A content part of a backend response: optional inline image data and
optional text. -/
structure ResponsePart where
  inlineData : Option InlineData

/-- The content of a candidate: an optional list of parts. -/
structure Content where
  parts : Option (List ResponsePart)

/-- A response candidate. -/
structure Candidate where
  content : Option Content

/-- The raw backend response (`GenerateContentResponse`).  The SDK accessor
`response.text` (the concatenated text reply, `undefined` when absent) is
modelled as a field since its implementation lives in the external SDK. -/
structure GenerateContentResponse where
  candidates : Option (List Candidate)
  text : Option String

/-- JavaScript `x || dflt` on an optional string (both `undefined` and the
empty string fall back). -/
def jsOrElse : Option String → String → String
  | some t, dflt => if t == "" then dflt else t
  | none, dflt => dflt

/-- The substring `generateDecadeImage` looks for to recognise a
refusal ("no image returned") failure. -/
def noImageCheck : String := "Yapay zeka bir resim yerine metinle yanıt verdi"

/-- The diagnostic message thrown by `processGeminiResponse` when the
response has no inline image part. -/
def noImageMessage (response : GenerateContentResponse) : String :=
  "Yapay zeka bir resim yerine metinle yanıt verdi: \"" ++
    jsOrElse response.text "Metin yanıtı alınamadı." ++ "\""

/-- Embedding of `processGeminiResponse` from `services/geminiService.ts`:
`response.candidates?.[0]?.content?.parts?.find(part => part.inlineData)`,
then either the data URL or the thrown refusal error. -/
def processGeminiResponse (response : GenerateContentResponse) : Except String String :=
  let imagePartFromResponse : Option ResponsePart :=
    (((response.candidates.bind List.head?).bind Candidate.content).bind Content.parts).bind
      (List.find? fun part => part.inlineData.isSome)
  match imagePartFromResponse.bind ResponsePart.inlineData with
  | some d => Except.ok ("data:" ++ d.mimeType ++ ";base64," ++ d.data)
  | none => Except.error (noImageMessage response)

/-- The inline data of the first part of the first candidate that carries
inline data (reference formulation used to state the classifier claims). -/
def firstInlineAux : List ResponsePart → Option InlineData
  | [] => none
  | p :: ps =>
    match p.inlineData with
    | some d => some d
    | none => firstInlineAux ps

/-- First inline image payload of a response, if any. -/
def firstInlineData (response : GenerateContentResponse) : Option InlineData :=
  match (((response.candidates.bind List.head?).bind Candidate.content).bind Content.parts) with
  | some ps => firstInlineAux ps
  | none => none

/- ### Retrying Call Wrapper (`callGeminiWithRetry`) -/

/-- The image payload sent with every backend call. -/
structure ImagePart where
  mimeType : String
  data : String

/-- One backend call outcome: the promise resolves with a raw response or
rejects with a thrown value. -/
inductive Outcome where
  | success : GenerateContentResponse → Outcome
  | failure : ErrVal → Outcome

/-- A backend oracle: the outcome of each `ai.models.generateContent` call,
indexed by the number of backend calls already issued in the session and by
the request payload. -/
def Backend := Nat → ImagePart → String → Outcome

/-- The observable result of running the retry wrapper: the resolved or
rejected value, the prompt sent on each backend call (in order), and the
backoff delays (ms) awaited between calls. -/
structure RunResult where
  result : Except String GenerateContentResponse
  promptsSent : List String
  delays : List Nat

def maxRetries : Nat := 3

def initialDelay : Nat := 1000

/-- The internal-fault test of `callGeminiWithRetry`:
`parsedError.includes('"code":500') || parsedError.includes('INTERNAL')`. -/
def isInternalError (parsedError : String) : Bool :=
  strContains parsedError "\"code\":500" || strContains parsedError "INTERNAL"

/-- The retry loop of `callGeminiWithRetry`, one recursive step per loop
iteration (`attempt` runs from 1; the fuel counts the remaining iterations,
so the `fuel = 0` case is the unreachable fall-through after the loop). -/
def attemptLoop (backend : Backend) (imagePart : ImagePart) (textPart : String)
    (startIdx : Nat) : Nat → Nat → RunResult
  | 0, _ => ⟨Except.error "API çağrısı tüm denemelere rağmen başarısız oldu.", [], []⟩
  | fuel + 1, attempt =>
    match backend (startIdx + (attempt - 1)) imagePart textPart with
    | Outcome.success r => ⟨Except.ok r, [textPart], []⟩
    | Outcome.failure e =>
      let parsedError := parseApiError e
      if isInternalError parsedError = true ∧ attempt < maxRetries then
        let delay := initialDelay * 2 ^ (attempt - 1)
        let rest := attemptLoop backend imagePart textPart startIdx fuel (attempt + 1)
        ⟨rest.result, textPart :: rest.promptsSent, delay :: rest.delays⟩
      else ⟨Except.error parsedError, [textPart], []⟩

/-- Embedding of `callGeminiWithRetry` from `services/geminiService.ts`.
`startIdx` is the number of backend calls issued before this invocation
(threading the session-global call count through the oracle). -/
def callGeminiWithRetry (backend : Backend) (imagePart : ImagePart) (textPart : String)
    (startIdx : Nat) : RunResult :=
  attemptLoop backend imagePart textPart startIdx maxRetries 1

/- ### Prompt helpers (`getFallbackPrompt`, `extractDecade`, `getPromptForDecade`) -/

/-- Embedding of `getFallbackPrompt` from `services/geminiService.ts`. -/
def getFallbackPrompt (decade : String) : String :=
  "Create a photograph of the person in this image as if they were living in the " ++ decade ++
    ". The photograph should capture the distinct fashion, hairstyles, and overall atmosphere of that time period. Ensure the final image is a clear photograph that looks authentic to the era."

/-- Model of the regex character class `\s` (the prompts only ever contain
plain spaces). -/
def isSpaceChar (c : Char) : Bool := c.isWhitespace

/-- First alternative of the decade regex: `19\d{2}\sler` anchored at the
start of the list. -/
def decadeAlt1 : List Char → Option String
  | '1' :: '9' :: a :: b :: w :: 'l' :: 'e' :: 'r' :: _ =>
    if a.isDigit && b.isDigit && isSpaceChar w then
      some (String.mk ['1', '9', a, b, w, 'l', 'e', 'r'])
    else none
  | _ => none

/-- Second alternative of the decade regex: `2000\sler` anchored at the
start of the list. -/
def decadeAlt2 : List Char → Option String
  | '2' :: '0' :: '0' :: '0' :: w :: 'l' :: 'e' :: 'r' :: _ =>
    if isSpaceChar w then some (String.mk ['2', '0', '0', '0', w, 'l', 'e', 'r']) else none
  | _ => none

/-- Leftmost-match scan of `/(19\d{2}\sler|2000\sler)/`. -/
def decadeScan : List Char → Option String
  | [] => none
  | c :: rest => decadeAlt1 (c :: rest) <|> decadeAlt2 (c :: rest) <|> decadeScan rest

/-- Embedding of `extractDecade` from `services/geminiService.ts`:
`prompt.match(/(19\d{2}\sler|2000\sler)/)`, returning the matched text. -/
def extractDecade (prompt : String) : Option String :=
  decadeScan prompt.toList

/- ### Data-URL validation of `generateDecadeImage` -/

/-- The regex word class `\w` = `[A-Za-z0-9_]`. -/
def isWordChar (c : Char) : Bool := c.isAlphanum || c == '_'

/-- A character the regex `.` matches (not a line terminator). -/
def notLineTerm (c : Char) : Bool :=
  !(c == '\n' || c == '\r' || c.toNat == 0x2028 || c.toNat == 0x2029)

/-- Embedding of the match `imageDataUrl.match(/^data:(image\/\w+);base64,(.*)$/)`:
returns the two capture groups (mime type, base64 payload) on success. -/
def parseDataUrl (s : String) : Option (String × String) :=
  let cs := s.toList
  if charsPrefix ("data:image/".toList) cs then
    let rest := cs.drop 11
    let sub := rest.takeWhile isWordChar
    let rest2 := rest.dropWhile isWordChar
    if !sub.isEmpty && charsPrefix (";base64,".toList) rest2 then
      let dat := rest2.drop 8
      if dat.all notLineTerm then some ("image/" ++ String.mk sub, String.mk dat) else none
    else none
  else none

/- ### Fallback Orchestrator (`generateDecadeImage`) -/

/-- The observable result of `generateDecadeImage`: resolved data URL or
rejected message, plus the prompt of each backend call issued and the
backoff delays awaited, in order. -/
structure GenResult where
  result : Except String String
  promptsSent : List String
  delays : List Nat

/-- The fixed message thrown on a malformed input data URL. -/
def invalidDataUrlMessage : String :=
  "Invalid image data URL format. Expected 'data:image/...;base64,...'"

/-- Embedding of `generateDecadeImage` from `services/geminiService.ts`. -/
def generateDecadeImage (backend : Backend) (imageDataUrl : String) (prompt : String) :
    GenResult :=
  match parseDataUrl imageDataUrl with
  | none => ⟨Except.error invalidDataUrlMessage, [], []⟩
  | some (mimeType, base64Data) =>
    let imagePart : ImagePart := ⟨mimeType, base64Data⟩
    let run1 := callGeminiWithRetry backend imagePart prompt 0
    let primary : Except String String :=
      match run1.result with
      | Except.ok response => processGeminiResponse response
      | Except.error e => Except.error e
    match primary with
    | Except.ok url => ⟨Except.ok url, run1.promptsSent, run1.delays⟩
    | Except.error errorMessage =>
      if strContains errorMessage noImageCheck then
        match extractDecade prompt with
        | none => ⟨Except.error errorMessage, run1.promptsSent, run1.delays⟩
        | some decade =>
          let fallbackPrompt := getFallbackPrompt decade
          let run2 :=
            callGeminiWithRetry backend imagePart fallbackPrompt run1.promptsSent.length
          let fallbackRes : Except String String :=
            match run2.result with
            | Except.ok response => processGeminiResponse response
            | Except.error e => Except.error e
          match fallbackRes with
          | Except.ok url =>
            ⟨Except.ok url, run1.promptsSent ++ run2.promptsSent, run1.delays ++ run2.delays⟩
          | Except.error finalErrorMessage =>
            ⟨Except.error ("Yapay zeka hem orijinal hem de yedek komutla başarısız oldu. Son hata: " ++
                finalErrorMessage),
              run1.promptsSent ++ run2.promptsSent, run1.delays ++ run2.delays⟩
      else ⟨Except.error errorMessage, run1.promptsSent, run1.delays⟩

/- ### Batch Scheduler state (`App.tsx`) -/

/-- The generation style selector of `App.tsx`. -/
inductive GenerationStyle where
  | strict
  | creative
  | turkish
deriving DecidableEq

/-- The reference batch of decade labels (`DECADES` in `App.tsx`). -/
def DECADES : List String :=
  ["1950 ler", "1960 lar", "1970 ler", "1980 ler", "1990 lar", "2000 ler"]

/-- Embedding of `getPromptForDecade` from `App.tsx`. -/
def getPromptForDecade (generationStyle : GenerationStyle) (decade : String) : String :=
  match generationStyle with
  | GenerationStyle.strict =>
    "Reimagine the person in this photo in the style of the " ++ decade ++
      ". It is crucial to maintain the person's core facial features and identity as closely as possible. This includes clothing, hairstyle, photo quality, and the overall aesthetic of that decade. The output must be a photorealistic image showing the person clearly."
  | GenerationStyle.creative =>
    "Take creative inspiration from the person in this photo to create a new portrait in the style of the " ++ decade ++
      ". The new image should reflect the fashion, hairstyles, and overall atmosphere of that era, with artistic freedom to reinterpret the person's appearance. The output must be a photorealistic image."
  | GenerationStyle.turkish =>
    "Reimagine the person in this photo in the style of the " ++ decade ++
      " in Turkey, with a \"Turkish style\". Incorporate authentic Turkish fashion, hairstyles, and aesthetics from that era. Think about Turkish Yeşilçam movies, popular musicians like Barış Manço or Ajda Pekkan, and everyday life in Turkey during the " ++ decade ++
      ". Maintain the person's core facial features but place them convincingly into a Turkish context of the time. The output must be a photorealistic image showing the person clearly."

/-- Per-job lifecycle state (`ImageStatus` in `App.tsx`). -/
inductive ImageStatus where
  | pending
  | done
  | error
deriving DecidableEq

/-- One entry of the per-decade job map (`GeneratedImage` in `App.tsx`). -/
structure GeneratedImage where
  status : ImageStatus
  url : Option String
  error : Option String
deriving DecidableEq

/-- The job map `generatedImages : Record<string, GeneratedImage>`; absent
keys read as `undefined`. -/
def JobMap := String → Option GeneratedImage

/-- Functional update of one key of the job map (the object spread
`{ ...prev, [decade]: v }`). -/
def setJob (m : JobMap) (k : String) (v : GeneratedImage) : JobMap :=
  fun k' => if k' = k then some v else m k'

/-- The quota-keyword test applied to a failed attempt's message in
`processDecade` and `handleRegenerateDecade`:
`errorMessage.toLowerCase().includes('kota') || errorMessage.toLowerCase().includes('limit')`. -/
def quotaKeywordCheck (msg : String) : Bool :=
  strContains (strToLower msg) "kota" || strContains (strToLower msg) "limit"

/-- Recording a finished attempt for `decade`: the job-map update and the
possible `setFatalError` call shared by `processDecade` and
`handleRegenerateDecade` in `App.tsx`. -/
def recordOutcome (images : JobMap) (fatalError : Option String) (decade : String)
    (res : Except String String) : JobMap × Option String :=
  match res with
  | Except.ok url => (setJob images decade ⟨ImageStatus.done, some url, none⟩, fatalError)
  | Except.error msg =>
    (setJob images decade ⟨ImageStatus.error, none, some msg⟩,
      if quotaKeywordCheck msg then some msg else fatalError)

/-- The job-map entry a finished attempt leaves behind. -/
def entryOf : Except String String → GeneratedImage
  | Except.ok url => ⟨ImageStatus.done, some url, none⟩
  | Except.error msg => ⟨ImageStatus.error, none, some msg⟩

/-- The component state of `App.tsx` relevant to the scheduler. -/
structure AppSt where
  uploadedImage : Option String
  generationStyle : GenerationStyle
  images : JobMap
  fatalError : Option String

/-- The pending test `generatedImages[decade]?.status === 'pending'`. -/
def jobPending (images : JobMap) (decade : String) : Bool :=
  match images decade with
  | some img => img.status = ImageStatus.pending
  | none => false

/-- The optimistic update of `handleRegenerateDecade`:
`{ ...prev, [decade]: { ...prev[decade], status: 'pending' } }` (spreading
`undefined` yields an object with only the `status` field). -/
def regenerateMark (st : AppSt) (decade : String) : AppSt :=
  let newEntry : GeneratedImage :=
    match st.images decade with
    | some img => { img with status := ImageStatus.pending }
    | none => ⟨ImageStatus.pending, none, none⟩
  { st with images := setJob st.images decade newEntry }

/-- Embedding of `handleRegenerateDecade` from `App.tsx`; returns the new
state and the number of backend calls issued. -/
def handleRegenerateDecade (backend : Backend) (st : AppSt) (decade : String) :
    AppSt × Nat :=
  match st.uploadedImage with
  | none => (st, 0)
  | some uploadedImage =>
    if uploadedImage = "" then (st, 0)
    else
      match st.fatalError with
      | some _ => (st, 0)
      | none =>
        if jobPending st.images decade then (st, 0)
        else
          let st1 := regenerateMark st decade
          let prompt := getPromptForDecade st.generationStyle decade
          let run := generateDecadeImage backend uploadedImage prompt
          let rec1 := recordOutcome st1.images st1.fatalError decade run.result
          ({ st1 with images := rec1.1, fatalError := rec1.2 }, run.promptsSent.length)

/- ### Batch Scheduler transition system (`handleGenerateClick`) -/

/-- One worker of the pool: idle (between jobs) or busy awaiting the
backend for a decade. -/
inductive WorkerSt where
  | idle
  | busy : String → WorkerSt
deriving DecidableEq

def concurrencyLimit : Nat := 2

/-- The scheduler state during the initial batch run: the shared FIFO
queue, the worker pool, the job map, and the fatal-error flag. -/
structure BatchSt where
  queue : List String
  workers : List WorkerSt
  images : JobMap
  fatalError : Option String

/-- The job map after `handleGenerateClick` initialises every decade to
`pending`. -/
def initialImages : JobMap :=
  fun d => if d ∈ DECADES then some ⟨ImageStatus.pending, none, none⟩ else none

/-- The scheduler state right after `handleGenerateClick` seeds the queue
and spawns the workers (`fatal` is whatever `fatalError` held beforehand,
since `handleGenerateClick` does not clear it). -/
def initBatch (fatal : Option String) : BatchSt :=
  ⟨DECADES, List.replicate concurrencyLimit WorkerSt.idle, initialImages, fatal⟩

/-- Small-step semantics of the worker pool of `handleGenerateClick`.
`outcome d` is the resolved result of `generateDecadeImage` for decade `d`
(the uploaded image, style and backend are fixed for the whole batch).
A `dequeue` step is the synchronous `decadesQueue.shift()` of an idle
worker; a `complete` step is the resumption of a busy worker when its
awaited call settles, recording the job's result exactly as
`processDecade` does. -/
inductive BatchStep (outcome : String → Except String String) : BatchSt → BatchSt → Prop where
  | dequeue (st : BatchSt) (w : Nat) (d : String) (rest : List String)
      (hw : st.workers.get? w = some WorkerSt.idle) (hq : st.queue = d :: rest) :
      BatchStep outcome st ⟨rest, st.workers.set w (WorkerSt.busy d), st.images, st.fatalError⟩
  | complete (st : BatchSt) (w : Nat) (d : String)
      (hw : st.workers.get? w = some (WorkerSt.busy d)) :
      BatchStep outcome st
        ⟨st.queue, st.workers.set w WorkerSt.idle,
          (recordOutcome st.images st.fatalError d (outcome d)).1,
          (recordOutcome st.images st.fatalError d (outcome d)).2⟩

/-- Reachability in the batch transition system. -/
def BatchReach (outcome : String → Except String String) : BatchSt → BatchSt → Prop :=
  Relation.ReflTransGen (BatchStep outcome)

/-- Number of workers with an outstanding backend interaction (each busy
worker awaits exactly one call at a time, every backend call and backoff
delay being a suspension point inside `processDecade`). -/
def busyCount (st : BatchSt) : Nat :=
  (st.workers.filter fun w => match w with | WorkerSt.busy _ => true | WorkerSt.idle => false).length

/- ### Basic lemmas about the string helpers -/

theorem strToList_append (a b : String) : (a ++ b).toList = a.toList ++ b.toList := rfl

theorem strAppend_assoc (a b c : String) : (a ++ b) ++ c = a ++ (b ++ c) := by
  cases a with
  | mk la =>
    cases b with
    | mk lb =>
      cases c with
      | mk lc =>
        show String.mk ((la ++ lb) ++ lc) = String.mk (la ++ (lb ++ lc))
        rw [List.append_assoc]

theorem charsPrefix_append (p r : List Char) : charsPrefix p (p ++ r) = true := by
  induction p with
  | nil => rfl
  | cons a as ih => simp [charsPrefix, ih]

theorem charsContains_of_prefix (t pat : List Char) (h : charsPrefix pat t = true) :
    charsContains t pat = true := by
  cases t with
  | nil =>
    cases pat with
    | nil => rfl
    | cons c cs => simp [charsPrefix] at h
  | cons c rest => simp [charsContains, h]

theorem strContains_of_prefix (pre rest : String) : strContains (pre ++ rest) pre = true := by
  unfold strContains
  rw [strToList_append]
  exact charsContains_of_prefix _ _ (charsPrefix_append _ _)

theorem noImageMessage_split (r : GenerateContentResponse) :
    noImageMessage r =
      noImageCheck ++ (": \"" ++ (jsOrElse r.text "Metin yanıtı alınamadı." ++ "\"")) := by
  unfold noImageMessage noImageCheck
  rw [show ("Yapay zeka bir resim yerine metinle yanıt verdi: \"" : String) =
      "Yapay zeka bir resim yerine metinle yanıt verdi" ++ ": \"" from rfl]
  rw [strAppend_assoc, strAppend_assoc]

theorem noImage_contains (r : GenerateContentResponse) :
    strContains (noImageMessage r) noImageCheck = true := by
  rw [noImageMessage_split]
  exact strContains_of_prefix _ _

/- ### Lemmas about the retry loop -/

theorem attemptLoop_zero (b : Backend) (ip : ImagePart) (p : String) (s a : Nat) :
    attemptLoop b ip p s 0 a =
      ⟨Except.error "API çağrısı tüm denemelere rağmen başarısız oldu.", [], []⟩ := rfl

theorem attemptLoop_succ_success (b : Backend) (ip : ImagePart) (p : String)
    (s fuel attempt : Nat) (r : GenerateContentResponse)
    (h : b (s + (attempt - 1)) ip p = Outcome.success r) :
    attemptLoop b ip p s (fuel + 1) attempt = ⟨Except.ok r, [p], []⟩ := by
  simp only [attemptLoop]
  rw [h]

theorem attemptLoop_succ_fail_stop (b : Backend) (ip : ImagePart) (p : String)
    (s fuel attempt : Nat) (e : ErrVal)
    (h : b (s + (attempt - 1)) ip p = Outcome.failure e)
    (hstop : ¬(isInternalError (parseApiError e) = true ∧ attempt < maxRetries)) :
    attemptLoop b ip p s (fuel + 1) attempt = ⟨Except.error (parseApiError e), [p], []⟩ := by
  simp only [attemptLoop, h]
  rw [if_neg hstop]

theorem attemptLoop_succ_fail_retry (b : Backend) (ip : ImagePart) (p : String)
    (s fuel attempt : Nat) (e : ErrVal)
    (h : b (s + (attempt - 1)) ip p = Outcome.failure e)
    (hgo : isInternalError (parseApiError e) = true ∧ attempt < maxRetries) :
    attemptLoop b ip p s (fuel + 1) attempt =
      ⟨(attemptLoop b ip p s fuel (attempt + 1)).result,
        p :: (attemptLoop b ip p s fuel (attempt + 1)).promptsSent,
        initialDelay * 2 ^ (attempt - 1) :: (attemptLoop b ip p s fuel (attempt + 1)).delays⟩ := by
  simp only [attemptLoop, h]
  rw [if_pos hgo]

theorem attemptLoop_len (b : Backend) (ip : ImagePart) (p : String) (s : Nat) :
    ∀ fuel attempt, (attemptLoop b ip p s fuel attempt).promptsSent.length ≤ fuel := by
  intro fuel
  induction fuel with
  | zero => intro attempt; simp [attemptLoop]
  | succ n ih =>
    intro attempt
    cases hb : b (s + (attempt - 1)) ip p with
    | success r => rw [attemptLoop_succ_success b ip p s n attempt _ hb]; simp
    | failure e =>
      by_cases hc : isInternalError (parseApiError e) = true ∧ attempt < maxRetries
      · rw [attemptLoop_succ_fail_retry b ip p s n attempt e hb hc]
        simpa using Nat.succ_le_succ (ih (attempt + 1))
      · rw [attemptLoop_succ_fail_stop b ip p s n attempt e hb hc]
        simp

theorem retry_success (b : Backend) (ip : ImagePart) (p : String) (s : Nat)
    (r : GenerateContentResponse) (h : b s ip p = Outcome.success r) :
    callGeminiWithRetry b ip p s = ⟨Except.ok r, [p], []⟩ := by
  show attemptLoop b ip p s (2 + 1) 1 = _
  exact attemptLoop_succ_success b ip p s 2 1 r h

theorem retry_fail_stop (b : Backend) (ip : ImagePart) (p : String) (s : Nat) (e : ErrVal)
    (h : b s ip p = Outcome.failure e) (hint : isInternalError (parseApiError e) = false) :
    callGeminiWithRetry b ip p s = ⟨Except.error (parseApiError e), [p], []⟩ := by
  show attemptLoop b ip p s (2 + 1) 1 = _
  exact attemptLoop_succ_fail_stop b ip p s 2 1 e h (by simp [hint])

theorem retry_int1_success (b : Backend) (ip : ImagePart) (p : String) (s : Nat)
    (e : ErrVal) (r : GenerateContentResponse)
    (h1 : b s ip p = Outcome.failure e) (hint : isInternalError (parseApiError e) = true)
    (h2 : b (s + 1) ip p = Outcome.success r) :
    callGeminiWithRetry b ip p s = ⟨Except.ok r, [p, p], [1000]⟩ := by
  show attemptLoop b ip p s (2 + 1) 1 = _
  rw [attemptLoop_succ_fail_retry b ip p s 2 1 e h1 ⟨hint, by norm_num [maxRetries]⟩]
  rw [(attemptLoop_succ_success b ip p s 1 2 r h2 : attemptLoop b ip p s 2 2 = _)]
  rfl

theorem retry_int1_fail_stop (b : Backend) (ip : ImagePart) (p : String) (s : Nat)
    (e e2 : ErrVal)
    (h1 : b s ip p = Outcome.failure e) (hint : isInternalError (parseApiError e) = true)
    (h2 : b (s + 1) ip p = Outcome.failure e2)
    (hint2 : isInternalError (parseApiError e2) = false) :
    callGeminiWithRetry b ip p s = ⟨Except.error (parseApiError e2), [p, p], [1000]⟩ := by
  show attemptLoop b ip p s (2 + 1) 1 = _
  rw [attemptLoop_succ_fail_retry b ip p s 2 1 e h1 ⟨hint, by norm_num [maxRetries]⟩]
  rw [(attemptLoop_succ_fail_stop b ip p s 1 2 e2 h2 (by simp [hint2]) :
    attemptLoop b ip p s 2 2 = _)]
  rfl

theorem retry_int2_success (b : Backend) (ip : ImagePart) (p : String) (s : Nat)
    (e e2 : ErrVal) (r : GenerateContentResponse)
    (h1 : b s ip p = Outcome.failure e) (hint : isInternalError (parseApiError e) = true)
    (h2 : b (s + 1) ip p = Outcome.failure e2)
    (hint2 : isInternalError (parseApiError e2) = true)
    (h3 : b (s + 2) ip p = Outcome.success r) :
    callGeminiWithRetry b ip p s = ⟨Except.ok r, [p, p, p], [1000, 2000]⟩ := by
  show attemptLoop b ip p s (2 + 1) 1 = _
  rw [attemptLoop_succ_fail_retry b ip p s 2 1 e h1 ⟨hint, by norm_num [maxRetries]⟩]
  rw [(attemptLoop_succ_fail_retry b ip p s 1 2 e2 h2 ⟨hint2, by norm_num [maxRetries]⟩ :
    attemptLoop b ip p s 2 2 = _)]
  rw [(attemptLoop_succ_success b ip p s 0 3 r h3 : attemptLoop b ip p s 1 3 = _)]
  rfl

theorem retry_int2_fail (b : Backend) (ip : ImagePart) (p : String) (s : Nat)
    (e e2 e3 : ErrVal)
    (h1 : b s ip p = Outcome.failure e) (hint : isInternalError (parseApiError e) = true)
    (h2 : b (s + 1) ip p = Outcome.failure e2)
    (hint2 : isInternalError (parseApiError e2) = true)
    (h3 : b (s + 2) ip p = Outcome.failure e3) :
    callGeminiWithRetry b ip p s = ⟨Except.error (parseApiError e3), [p, p, p], [1000, 2000]⟩ := by
  show attemptLoop b ip p s (2 + 1) 1 = _
  rw [attemptLoop_succ_fail_retry b ip p s 2 1 e h1 ⟨hint, by norm_num [maxRetries]⟩]
  rw [(attemptLoop_succ_fail_retry b ip p s 1 2 e2 h2 ⟨hint2, by norm_num [maxRetries]⟩ :
    attemptLoop b ip p s 2 2 = _)]
  rw [(attemptLoop_succ_fail_stop b ip p s 0 3 e3 h3 (by norm_num [maxRetries]) :
    attemptLoop b ip p s 1 3 = _)]
  rfl

/- ### Lemmas about the Response Classifier -/

theorem find?_inline_eq (ps : List ResponsePart) :
    ((ps.find? fun part => part.inlineData.isSome).bind ResponsePart.inlineData) =
      firstInlineAux ps := by
  induction ps with
  | nil => rfl
  | cons p ps ih =>
    cases hp : p.inlineData with
    | some d => simp [List.find?, hp, firstInlineAux]
    | none => simp [List.find?, hp, firstInlineAux, ih]

theorem imagePart_eq (r : GenerateContentResponse) :
    ((((r.candidates.bind List.head?).bind Candidate.content).bind Content.parts).bind
        (List.find? fun part => part.inlineData.isSome)).bind ResponsePart.inlineData =
      firstInlineData r := by
  cases h : (((r.candidates.bind List.head?).bind Candidate.content).bind Content.parts) with
  | none => simp [firstInlineData, h]
  | some ps => simp [firstInlineData, h, find?_inline_eq]

theorem processGeminiResponse_image (r : GenerateContentResponse) (d : InlineData)
    (h : firstInlineData r = some d) :
    processGeminiResponse r = Except.ok ("data:" ++ d.mimeType ++ ";base64," ++ d.data) := by
  simp only [processGeminiResponse]
  rw [imagePart_eq r, h]

theorem processGeminiResponse_noImage (r : GenerateContentResponse)
    (h : firstInlineData r = none) :
    processGeminiResponse r = Except.error (noImageMessage r) := by
  simp only [processGeminiResponse]
  rw [imagePart_eq r, h]

/- ### Lemmas about the Error Normalizer -/

theorem parseApiError_parseFail (e : ErrVal) (h : jsonParse (errMessageOf e) = none) :
    parseApiError e = errMessageOf e := by
  simp only [parseApiError]
  rw [h]

theorem parseApiError_quota (e : ErrVal) (j : Json)
    (hp : jsonParse (errMessageOf e) = some j) (hq : isQuotaData j = true) :
    parseApiError e = quotaMessage := by
  simp only [parseApiError]
  rw [hp]
  simp [hq]

theorem parseApiError_msgField (e : ErrVal) (j m : Json)
    (hp : jsonParse (errMessageOf e) = some j) (hq : isQuotaData j = false)
    (hm : jsGetField2 j "error" "message" = some m) (ht : jsonTruthy m = true) :
    parseApiError e = jsToString m := by
  simp only [parseApiError]
  rw [hp]
  simp [hq, hm, ht]

theorem parseApiError_noMsgField (e : ErrVal) (j : Json)
    (hp : jsonParse (errMessageOf e) = some j) (hq : isQuotaData j = false)
    (hm : jsGetField2 j "error" "message" = none) :
    parseApiError e = errMessageOf e := by
  simp only [parseApiError]
  rw [hp]
  simp [hq, hm]

theorem parseApiError_falsyMsgField (e : ErrVal) (j m : Json)
    (hp : jsonParse (errMessageOf e) = some j) (hq : isQuotaData j = false)
    (hm : jsGetField2 j "error" "message" = some m) (ht : jsonTruthy m = false) :
    parseApiError e = errMessageOf e := by
  simp only [parseApiError]
  rw [hp]
  simp [hq, hm, ht]

/- ### Lemmas about the Fallback Orchestrator -/

theorem genImage_invalidUrl (b : Backend) (url prompt : String)
    (h : parseDataUrl url = none) :
    generateDecadeImage b url prompt = ⟨Except.error invalidDataUrlMessage, [], []⟩ := by
  simp only [generateDecadeImage, h]

theorem genImage_primaryFail_stop (b : Backend) (url prompt mt dat : String) (e : ErrVal)
    (h : parseDataUrl url = some (mt, dat))
    (hb : b 0 ⟨mt, dat⟩ prompt = Outcome.failure e)
    (hint : isInternalError (parseApiError e) = false)
    (hni : strContains (parseApiError e) noImageCheck = false) :
    generateDecadeImage b url prompt = ⟨Except.error (parseApiError e), [prompt], []⟩ := by
  simp only [generateDecadeImage, h]
  rw [retry_fail_stop b ⟨mt, dat⟩ prompt 0 e hb hint]
  simp [hni]

theorem genImage_textOnly_fallback (b : Backend) (url prompt mt dat d : String)
    (r1 r2 : GenerateContentResponse)
    (h : parseDataUrl url = some (mt, dat))
    (hb1 : b 0 ⟨mt, dat⟩ prompt = Outcome.success r1)
    (hr1 : firstInlineData r1 = none)
    (hd : extractDecade prompt = some d)
    (hb2 : b 1 ⟨mt, dat⟩ (getFallbackPrompt d) = Outcome.success r2)
    (hr2 : firstInlineData r2 = none) :
    generateDecadeImage b url prompt =
      ⟨Except.error ("Yapay zeka hem orijinal hem de yedek komutla başarısız oldu. Son hata: " ++
          noImageMessage r2),
        [prompt, getFallbackPrompt d], []⟩ := by
  simp only [generateDecadeImage, h]
  rw [retry_success b ⟨mt, dat⟩ prompt 0 r1 hb1]
  simp only [processGeminiResponse_noImage r1 hr1, noImage_contains r1, hd, List.length_cons,
    List.length_nil]
  rw [retry_success b ⟨mt, dat⟩ (getFallbackPrompt d) 1 r2 hb2]
  simp [processGeminiResponse_noImage r2 hr2]

theorem genImage_textOnly_noFallback (b : Backend) (url prompt mt dat : String)
    (r1 : GenerateContentResponse)
    (h : parseDataUrl url = some (mt, dat))
    (hb1 : b 0 ⟨mt, dat⟩ prompt = Outcome.success r1)
    (hr1 : firstInlineData r1 = none)
    (hd : extractDecade prompt = none) :
    generateDecadeImage b url prompt = ⟨Except.error (noImageMessage r1), [prompt], []⟩ := by
  simp only [generateDecadeImage, h]
  rw [retry_success b ⟨mt, dat⟩ prompt 0 r1 hb1]
  simp [processGeminiResponse_noImage r1 hr1, noImage_contains r1, hd]

/- ### Lemmas about the job map and the regeneration handler -/

theorem recordOutcome_fst (images : JobMap) (fatal : Option String) (decade : String)
    (res : Except String String) :
    (recordOutcome images fatal decade res).1 = setJob images decade (entryOf res) := by
  cases res <;> rfl

theorem setJob_same (m : JobMap) (k : String) (v : GeneratedImage) : setJob m k v k = some v := by
  simp [setJob]

theorem setJob_other (m : JobMap) (k : String) (v : GeneratedImage) (k' : String)
    (h : k' ≠ k) : setJob m k v k' = m k' := by
  simp [setJob, h]

theorem regen_noop_fatal (b : Backend) (st : AppSt) (d : String)
    (h : st.fatalError.isSome = true) :
    handleRegenerateDecade b st d = (st, 0) := by
  obtain ⟨m, hm⟩ := Option.isSome_iff_exists.mp h
  cases hu : st.uploadedImage <;> simp [handleRegenerateDecade, hu, hm]

theorem regen_run (b : Backend) (st : AppSt) (d u : String)
    (hu : st.uploadedImage = some u) (hne : u ≠ "") (hf : st.fatalError = none)
    (hp : jobPending st.images d = false) :
    handleRegenerateDecade b st d =
      ({ regenerateMark st d with
          images := (recordOutcome (regenerateMark st d).images none d
            (generateDecadeImage b u (getPromptForDecade st.generationStyle d)).result).1,
          fatalError := (recordOutcome (regenerateMark st d).images none d
            (generateDecadeImage b u (getPromptForDecade st.generationStyle d)).result).2 },
        (generateDecadeImage b u (getPromptForDecade st.generationStyle d)).promptsSent.length) := by
  simp only [handleRegenerateDecade, hu, hf]
  rw [if_neg hne]
  simp [hp, regenerateMark, hf]

/- ### Lemmas about the batch transition system -/

theorem lt_of_get?_some {α : Type} {l : List α} {n : Nat} {a : α}
    (h : l.get? n = some a) : n < l.length := by
  induction l generalizing n with
  | nil => simp [List.get?] at h
  | cons x xs ih =>
    cases n with
    | zero => simp
    | succ m => simpa using Nat.succ_lt_succ (ih (by simpa using h))

theorem mem_set_self {α : Type} (l : List α) (n : Nat) (a : α) (h : n < l.length) :
    a ∈ l.set n a := by
  induction l generalizing n with
  | nil => simp at h
  | cons x xs ih =>
    cases n with
    | zero => simp [List.set]
    | succ m =>
      simp only [List.set, List.mem_cons]
      exact Or.inr (ih m (by simpa using h))

theorem mem_set_of_get?_ne {α : Type} {l : List α} {n : Nat} {b c : α} (x : α)
    (hb : b ∈ l) (hc : l.get? n = some c) (hne : b ≠ c) : b ∈ l.set n x := by
  induction l generalizing n with
  | nil => simp at hb
  | cons y ys ih =>
    cases n with
    | zero =>
      have hy : y = c := by simpa using hc
      rcases List.mem_cons.mp hb with rfl | hbs
      · exact absurd hy hne
      · simp only [List.set, List.mem_cons]
        exact Or.inr hbs
    | succ m =>
      rcases List.mem_cons.mp hb with rfl | hbs
      · simp [List.set]
      · simp only [List.set, List.mem_cons]
        exact Or.inr (ih hbs (by simpa using hc))

/-- The batch invariant: the worker pool keeps its fixed size, and each
decade is either still queued, owned by a busy worker, or recorded in the
job map with its own outcome. -/
def BatchInv (outcome : String → Except String String) (st : BatchSt) : Prop :=
  st.workers.length = concurrencyLimit ∧
    ∀ d ∈ DECADES,
      d ∈ st.queue ∨ WorkerSt.busy d ∈ st.workers ∨
        st.images d = some (entryOf (outcome d))

theorem batchInv_init (outcome : String → Except String String) (f : Option String) :
    BatchInv outcome (initBatch f) := by
  constructor
  · simp [initBatch, concurrencyLimit]
  · intro d hd
    exact Or.inl hd

theorem batchInv_step {outcome : String → Except String String} {s s' : BatchSt}
    (h : BatchStep outcome s s') (hi : BatchInv outcome s) : BatchInv outcome s' := by
  obtain ⟨hlen, hinv⟩ := hi
  cases h with
  | dequeue w d0 rest hw hq =>
    refine ⟨by simpa using hlen, ?_⟩
    intro d hd
    rcases hinv d hd with hq' | hb | him
    · rw [hq] at hq'
      rcases List.mem_cons.mp hq' with rfl | hrest
      · exact Or.inr (Or.inl (mem_set_self _ _ _ (lt_of_get?_some hw)))
      · exact Or.inl hrest
    · exact Or.inr (Or.inl (mem_set_of_get?_ne _ hb hw (by simp)))
    · exact Or.inr (Or.inr him)
  | complete w d0 hw =>
    refine ⟨by simpa using hlen, ?_⟩
    intro d hd
    by_cases hdd : d = d0
    · subst hdd
      refine Or.inr (Or.inr ?_)
      show (recordOutcome s.images s.fatalError d (outcome d)).1 d = _
      rw [recordOutcome_fst, setJob_same]
    · rcases hinv d hd with hq' | hb | him
      · exact Or.inl hq'
      · exact Or.inr (Or.inl (mem_set_of_get?_ne _ hb hw (by simp [hdd])))
      · refine Or.inr (Or.inr ?_)
        show (recordOutcome s.images s.fatalError d0 (outcome d0)).1 d = _
        rw [recordOutcome_fst, setJob_other _ _ _ _ hdd]
        exact him

theorem batchInv_reach (outcome : String → Except String String) (f : Option String)
    (st : BatchSt) (h : BatchReach outcome (initBatch f) st) : BatchInv outcome st := by
  induction h with
  | refl => exact batchInv_init outcome f
  | tail _ hstep ih => exact batchInv_step hstep ih

/-- Sequential execution of the whole queue by worker 0 (used to exhibit a
concrete complete run of the batch). -/
def runQueue (outcome : String → Except String String) :
    List String → JobMap → Option String → JobMap × Option String
  | [], images, fatal => (images, fatal)
  | d :: rest, images, fatal =>
    runQueue outcome rest (recordOutcome images fatal d (outcome d)).1
      (recordOutcome images fatal d (outcome d)).2

theorem seqReach (outcome : String → Except String String) :
    ∀ (q : List String) (im : JobMap) (f : Option String),
      BatchReach outcome ⟨q, [WorkerSt.idle, WorkerSt.idle], im, f⟩
        ⟨[], [WorkerSt.idle, WorkerSt.idle],
          (runQueue outcome q im f).1, (runQueue outcome q im f).2⟩ := by
  intro q
  induction q with
  | nil => intro im f; exact Relation.ReflTransGen.refl
  | cons d rest ih =>
    intro im f
    have s1 : BatchStep outcome ⟨d :: rest, [WorkerSt.idle, WorkerSt.idle], im, f⟩
        ⟨rest, [WorkerSt.busy d, WorkerSt.idle], im, f⟩ :=
      BatchStep.dequeue ⟨d :: rest, [WorkerSt.idle, WorkerSt.idle], im, f⟩ 0 d rest rfl rfl
    have s2 : BatchStep outcome ⟨rest, [WorkerSt.busy d, WorkerSt.idle], im, f⟩
        ⟨rest, [WorkerSt.idle, WorkerSt.idle],
          (recordOutcome im f d (outcome d)).1, (recordOutcome im f d (outcome d)).2⟩ :=
      BatchStep.complete ⟨rest, [WorkerSt.busy d, WorkerSt.idle], im, f⟩ 0 d rfl
    exact Relation.ReflTransGen.head s1 (Relation.ReflTransGen.head s2
      (ih (recordOutcome im f d (outcome d)).1 (recordOutcome im f d (outcome d)).2))

/- ### Demonstration data used by the witness theorems -/

set_option maxRecDepth 10000

/-- An error whose message decodes as a JSON object with `error.code = 429`. -/
def quota429Err : ErrVal := ErrVal.errObj "\x7b\"error\":\x7b\"code\":429\x7d\x7d"

/-- The decoded form of the message of `quota429Err`. -/
def quota429Json : Json := Json.obj [("error", Json.obj [("code", Json.num 429)])]

/-- A backend whose first two calls raise internal errors and whose third
call succeeds. -/
def c2DemoResp : GenerateContentResponse := ⟨none, some "ok"⟩

def c2DemoBackend : Backend := fun n _ _ =>
  if n = 0 then Outcome.failure (ErrVal.errObj "INTERNAL fault one")
  else if n = 1 then Outcome.failure (ErrVal.errObj "INTERNAL fault two")
  else Outcome.success c2DemoResp

def demoImagePart : ImagePart := ⟨"image/png", "AAA"⟩

/-- A backend that always resolves with a text-only reply. -/
def textOnlyBackend : Backend := fun _ _ _ => Outcome.success ⟨none, some "no"⟩

/-- Every job succeeds with the same image (demonstration outcome). -/
def demoOutcome : String → Except String String := fun _ => Except.ok "img"

/-- A response carrying an inline image part. -/
def demoImageResp : GenerateContentResponse :=
  ⟨some [⟨some ⟨some [⟨some ⟨"image/png", "QUJD"⟩⟩]⟩⟩], none⟩

/-- A session state whose FatalCondition is set. -/
def fatalDemoSt : AppSt :=
  ⟨some "data:image/png;base64,AAA", GenerationStyle.strict, fun _ => none, some quotaMessage⟩

def c8DemoImages : JobMap :=
  setJob (fun _ => none) "1950 ler" ⟨ImageStatus.done, some "u0", none⟩

def c8DemoSt : AppSt :=
  ⟨some "data:image/png;base64,AAA", GenerationStyle.strict, c8DemoImages, none⟩

/- ### The claims -/

/-- Claim C1, counterexample: the decade label `"1960 lar"` belongs to the
reference batch, yet the era-token extraction applied to the strict-style
primary prompt built for it returns `none` (the extraction regex only
accepts the suffix `ler`, while this label ends in `lar`), so the claim
that extraction recovers every decade label fails. -/
theorem C1_counterexample :
    "1960 lar" ∈ DECADES ∧
      extractDecade (getPromptForDecade GenerationStyle.strict "1960 lar") = none :=
  ⟨by decide, by decide⟩

/-- Claim C1 (amended): for every generation style and decade label of the
reference batch, the era-token extraction applied to the primary prompt
returns the decade label for the four labels with suffix `ler`
(`1950 ler`, `1970 ler`, `1980 ler`, `2000 ler`) and returns `none` for
`1960 lar` and `1990 lar`, whose suffix `lar` the extraction regex does not
accept — for those two decades no fallback prompt can be constructed. -/
theorem C1_amended (style : GenerationStyle) (d : String) (hd : d ∈ DECADES) :
    extractDecade (getPromptForDecade style d) =
      if d = "1960 lar" ∨ d = "1990 lar" then none else some d := by
  simp only [DECADES, List.mem_cons, List.not_mem_nil, or_false] at hd
  rcases hd with rfl | rfl | rfl | rfl | rfl | rfl <;> cases style <;> decide

/-- Witness for C1 at the strict style and the decade `1950 ler`. -/
theorem C1_witness :
    "1950 ler" ∈ DECADES ∧
      extractDecade (getPromptForDecade GenerationStyle.strict "1950 ler") =
        (if ("1950 ler" : String) = "1960 lar" ∨ ("1950 ler" : String) = "1990 lar" then none
          else some "1950 ler") :=
  ⟨by decide, C1_amended GenerationStyle.strict "1950 ler" (by decide)⟩

/-- Claim C2 (confirmed): the Retrying Call Wrapper returns the first
successful raw backend response untouched; after a failed attempt it
retries only when the normalized message contains `"code":500` or
`INTERNAL` (case-sensitive substring) and the attempt number is below the
maximum of 3, waiting `1000ms * 2^(attempt-1)` (attempt 1 -> 1000ms,
attempt 2 -> 2000ms); in every other failure case it fails immediately
with the normalized message, and at most 3 backend calls are ever made. -/
theorem C2_retryPolicy (b : Backend) (ip : ImagePart) (p : String) (s : Nat) :
    (callGeminiWithRetry b ip p s).promptsSent.length ≤ 3
    ∧ (∀ r, b s ip p = Outcome.success r →
        callGeminiWithRetry b ip p s = ⟨Except.ok r, [p], []⟩)
    ∧ (∀ e, b s ip p = Outcome.failure e → isInternalError (parseApiError e) = false →
        callGeminiWithRetry b ip p s = ⟨Except.error (parseApiError e), [p], []⟩)
    ∧ (∀ e r, b s ip p = Outcome.failure e → isInternalError (parseApiError e) = true →
        b (s + 1) ip p = Outcome.success r →
        callGeminiWithRetry b ip p s = ⟨Except.ok r, [p, p], [1000]⟩)
    ∧ (∀ e e2, b s ip p = Outcome.failure e → isInternalError (parseApiError e) = true →
        b (s + 1) ip p = Outcome.failure e2 → isInternalError (parseApiError e2) = false →
        callGeminiWithRetry b ip p s = ⟨Except.error (parseApiError e2), [p, p], [1000]⟩)
    ∧ (∀ e e2 r, b s ip p = Outcome.failure e → isInternalError (parseApiError e) = true →
        b (s + 1) ip p = Outcome.failure e2 → isInternalError (parseApiError e2) = true →
        b (s + 2) ip p = Outcome.success r →
        callGeminiWithRetry b ip p s = ⟨Except.ok r, [p, p, p], [1000, 2000]⟩)
    ∧ (∀ e e2 e3, b s ip p = Outcome.failure e → isInternalError (parseApiError e) = true →
        b (s + 1) ip p = Outcome.failure e2 → isInternalError (parseApiError e2) = true →
        b (s + 2) ip p = Outcome.failure e3 →
        callGeminiWithRetry b ip p s = ⟨Except.error (parseApiError e3), [p, p, p], [1000, 2000]⟩) := by
  refine ⟨attemptLoop_len b ip p s maxRetries 1, ?_, ?_, ?_, ?_, ?_, ?_⟩
  · exact fun r h => retry_success b ip p s r h
  · exact fun e h hint => retry_fail_stop b ip p s e h hint
  · exact fun e r h1 hint h2 => retry_int1_success b ip p s e r h1 hint h2
  · exact fun e e2 h1 hint h2 hint2 => retry_int1_fail_stop b ip p s e e2 h1 hint h2 hint2
  · exact fun e e2 r h1 hint h2 hint2 h3 => retry_int2_success b ip p s e e2 r h1 hint h2 hint2 h3
  · exact fun e e2 e3 h1 hint h2 hint2 h3 => retry_int2_fail b ip p s e e2 e3 h1 hint h2 hint2 h3

/-- Witness for C2: a backend failing twice with `INTERNAL` messages and
succeeding on the third call resolves with the third response after
exactly 3 calls and delays of 1000ms and 2000ms. -/
theorem C2_witness :
    callGeminiWithRetry c2DemoBackend demoImagePart "p" 0 =
      ⟨Except.ok c2DemoResp, ["p", "p", "p"], [1000, 2000]⟩ :=
  (C2_retryPolicy c2DemoBackend demoImagePart "p" 0).2.2.2.2.2.1
    (ErrVal.errObj "INTERNAL fault one") (ErrVal.errObj "INTERNAL fault two") c2DemoResp
    rfl (by decide) rfl (by decide) rfl

/-- Claim C3 (confirmed): the Error Normalizer is a total function into
strings (so it never throws); the message it examines is the error's own
message for `Error` inputs and the JSON serialization of the input
otherwise; when that message decodes to an object exposing
`error.status = 'RESOURCE_EXHAUSTED'` or `error.code = 429` it returns the
fixed quota message; otherwise a truthy `error.message` field is surfaced;
in every remaining case (parse failure, no such field, falsy field) the
raw message text is returned. -/
theorem C3_errorNormalizer (e : ErrVal) :
    (∀ m, e = ErrVal.errObj m → errMessageOf e = m)
    ∧ (∀ v, e = ErrVal.nonError v → errMessageOf e = jsonStringify v)
    ∧ (jsonParse (errMessageOf e) = none → parseApiError e = errMessageOf e)
    ∧ (∀ j, jsonParse (errMessageOf e) = some j → isQuotaData j = true →
        parseApiError e = quotaMessage)
    ∧ (∀ j m, jsonParse (errMessageOf e) = some j → isQuotaData j = false →
        jsGetField2 j "error" "message" = some m → jsonTruthy m = true →
        parseApiError e = jsToString m)
    ∧ (∀ j, jsonParse (errMessageOf e) = some j → isQuotaData j = false →
        jsGetField2 j "error" "message" = none → parseApiError e = errMessageOf e)
    ∧ (∀ j m, jsonParse (errMessageOf e) = some j → isQuotaData j = false →
        jsGetField2 j "error" "message" = some m → jsonTruthy m = false →
        parseApiError e = errMessageOf e) := by
  refine ⟨?_, ?_, parseApiError_parseFail e, parseApiError_quota e, parseApiError_msgField e,
    parseApiError_noMsgField e, parseApiError_falsyMsgField e⟩
  · intro m h; rw [h]; rfl
  · intro v h; rw [h]; rfl

/-- Witness for C3: an error whose message is the JSON text
`{"error":{"code":429}}` normalizes to the fixed quota message. -/
theorem C3_witness : parseApiError quota429Err = quotaMessage :=
  (C3_errorNormalizer quota429Err).2.2.2.1 quota429Json rfl rfl

/-- Claim C4 (confirmed): a backend failure decodable as
`{error:{code:429}}` normalizes to the fixed quota message; that message is
not retried by the wrapper and is propagated unchanged by the orchestrator
after a single backend call; recording it marks the job `error` with the
quota message and sets the session FatalCondition; and while the
FatalCondition is set, a regenerate call on any job issues no backend call
and leaves the state unchanged. -/
theorem C4_quotaFatal (e : ErrVal)
    (hq : ∃ j, jsonParse (errMessageOf e) = some j ∧
      isNumEq (jsGetField2 j "error" "code") 429 = true) :
    parseApiError e = quotaMessage
    ∧ (∀ (b : Backend) ip p s, b s ip p = Outcome.failure e →
        callGeminiWithRetry b ip p s = ⟨Except.error quotaMessage, [p], []⟩)
    ∧ (∀ (b : Backend) url mt dat prompt, parseDataUrl url = some (mt, dat) →
        b 0 ⟨mt, dat⟩ prompt = Outcome.failure e →
        generateDecadeImage b url prompt = ⟨Except.error quotaMessage, [prompt], []⟩)
    ∧ (∀ images fatal d, recordOutcome images fatal d (Except.error quotaMessage) =
        (setJob images d ⟨ImageStatus.error, none, some quotaMessage⟩, some quotaMessage))
    ∧ (∀ (b : Backend) st d, st.fatalError.isSome = true →
        handleRegenerateDecade b st d = (st, 0)) := by
  obtain ⟨j, hp, hcode⟩ := hq
  have hpe : parseApiError e = quotaMessage := by
    refine parseApiError_quota e j hp ?_
    unfold isQuotaData
    rw [hcode, Bool.or_true]
  refine ⟨hpe, ?_, ?_, ?_, ?_⟩
  · intro b ip p s hb
    have h := retry_fail_stop b ip p s e hb (by rw [hpe]; decide)
    rw [hpe] at h
    exact h
  · intro b url mt dat prompt hurl hb
    have h := genImage_primaryFail_stop b url prompt mt dat e hurl hb
      (by rw [hpe]; decide) (by rw [hpe]; decide)
    rw [hpe] at h
    exact h
  · intro images fatal d
    simp [recordOutcome, show quotaKeywordCheck quotaMessage = true from by decide]
  · exact fun b st d h => regen_noop_fatal b st d h

/-- Witness for C4: the concrete 429 payload yields the quota message, and
with the FatalCondition set, regenerating any decade is a no-op. -/
theorem C4_witness :
    parseApiError quota429Err = quotaMessage ∧
      handleRegenerateDecade textOnlyBackend fatalDemoSt "1950 ler" = (fatalDemoSt, 0) := by
  have h := C4_quotaFatal quota429Err ⟨quota429Json, rfl, rfl⟩
  exact ⟨h.1, h.2.2.2.2 textOnlyBackend fatalDemoSt "1950 ler" rfl⟩

/-- Claim C5 (confirmed): against a backend that always resolves with a
text-only reply (no inline image part), the Fallback Orchestrator issues
exactly 2 backend calls (the primary prompt, then the fallback prompt)
and fails with the both-failed text concatenated with the fallback
attempt's refusal message when the primary prompt contains an extractable
era token; with no extractable token it issues exactly 1 backend call and
re-raises the original refusal failure unchanged. -/
theorem C5_fallbackCalls (resp : Nat → ImagePart → String → GenerateContentResponse)
    (hresp : ∀ n ip q, firstInlineData (resp n ip q) = none)
    (url mt dat prompt : String) (hurl : parseDataUrl url = some (mt, dat)) :
    (∀ d, extractDecade prompt = some d →
      generateDecadeImage (fun n ip q => Outcome.success (resp n ip q)) url prompt =
        ⟨Except.error ("Yapay zeka hem orijinal hem de yedek komutla başarısız oldu. Son hata: " ++
            noImageMessage (resp 1 ⟨mt, dat⟩ (getFallbackPrompt d))),
          [prompt, getFallbackPrompt d], []⟩)
    ∧ (extractDecade prompt = none →
      generateDecadeImage (fun n ip q => Outcome.success (resp n ip q)) url prompt =
        ⟨Except.error (noImageMessage (resp 0 ⟨mt, dat⟩ prompt)), [prompt], []⟩) := by
  constructor
  · intro d hd
    exact genImage_textOnly_fallback _ url prompt mt dat d _ _ hurl rfl (hresp 0 _ _) hd rfl
      (hresp 1 _ _)
  · intro hd
    exact genImage_textOnly_noFallback _ url prompt mt dat _ hurl rfl (hresp 0 _ _) hd

/-- Witness for C5: a concrete text-only backend with a prompt containing
the era token `1950 ler` issues the primary and then the fallback prompt. -/
theorem C5_witness :
    generateDecadeImage (fun n ip q => Outcome.success ((fun _ _ _ => (⟨none, some "no"⟩ :
        GenerateContentResponse)) n ip q)) "data:image/png;base64,AAA" "era 1950 ler shot" =
      ⟨Except.error ("Yapay zeka hem orijinal hem de yedek komutla başarısız oldu. Son hata: " ++
          noImageMessage ⟨none, some "no"⟩),
        ["era 1950 ler shot", getFallbackPrompt "1950 ler"], []⟩ :=
  (C5_fallbackCalls (fun _ _ _ => ⟨none, some "no"⟩) (fun _ _ _ => rfl)
    "data:image/png;base64,AAA" "image/png" "AAA" "era 1950 ler shot" rfl).1
    "1950 ler" (by decide)

/-- Claim C6 (confirmed): whenever the initial batch run reaches a state
where the queue is drained and every worker is idle (the point at which the
batch call resolves), each of the 6 decade jobs is recorded in the job map
with its own attempt's result — `done` with its image or `error` with its
message, never `pending` — independently of every other job's outcome. -/
theorem C6_batchDrains (outcome : String → Except String String) (f : Option String)
    (st : BatchSt) (hreach : BatchReach outcome (initBatch f) st)
    (hq : st.queue = []) (hw : ∀ w ∈ st.workers, w = WorkerSt.idle) :
    DECADES.length = 6 ∧
      ∀ d ∈ DECADES, st.images d = some (entryOf (outcome d)) ∧
        (entryOf (outcome d)).status ≠ ImageStatus.pending := by
  refine ⟨by decide, ?_⟩
  intro d hd
  rcases (batchInv_reach outcome f st hreach).2 d hd with hq' | hb | him
  · rw [hq] at hq'
    simp at hq'
  · have hcontra := hw _ hb
    simp at hcontra
  · refine ⟨him, ?_⟩
    cases h2 : outcome d <;> simp [entryOf]

/-- Witness for C6: the sequential execution of the whole queue reaches a
drained state in which the job for `1950 ler` is recorded as done. -/
theorem C6_witness :
    (runQueue demoOutcome DECADES initialImages none).1 "1950 ler" =
      some (entryOf (demoOutcome "1950 ler")) ∧
      (entryOf (demoOutcome "1950 ler")).status ≠ ImageStatus.pending := by
  have hall : ∀ w ∈ ([WorkerSt.idle, WorkerSt.idle] : List WorkerSt), w = WorkerSt.idle := by
    intro w hwm
    rcases List.mem_cons.mp hwm with rfl | hw2
    · rfl
    · rcases List.mem_cons.mp hw2 with rfl | hw3
      · rfl
      · simp at hw3
  exact (C6_batchDrains demoOutcome none _
    (seqReach demoOutcome DECADES initialImages none) rfl hall).2 "1950 ler" (by decide)

/-- Claim C7 (confirmed): the Response Classifier returns the data URL
built from the first content part carrying inline image data when one
exists, and otherwise fails with the refusal error carrying the response's
textual reply, or the fixed placeholder when that reply is empty or
absent. -/
theorem C7_responseClassifier (r : GenerateContentResponse) :
    (∀ d, firstInlineData r = some d →
      processGeminiResponse r = Except.ok ("data:" ++ d.mimeType ++ ";base64," ++ d.data))
    ∧ (firstInlineData r = none →
      processGeminiResponse r =
        Except.error ("Yapay zeka bir resim yerine metinle yanıt verdi: \"" ++
          jsOrElse r.text "Metin yanıtı alınamadı." ++ "\"")) :=
  ⟨fun d h => processGeminiResponse_image r d h, fun h => processGeminiResponse_noImage r h⟩

/-- Witness for C7: a response with an inline `image/png` part classifies
to its data URL. -/
theorem C7_witness :
    processGeminiResponse demoImageResp = Except.ok "data:image/png;base64,QUJD" :=
  (C7_responseClassifier demoImageResp).1 ⟨"image/png", "QUJD"⟩ rfl

/-- Claim C8 (confirmed): a regenerate call on a non-pending job, with the
FatalCondition unset, first rewrites only that job's entry — status
`pending` with the previous `url` and `error` fields preserved — leaving
every other field of the state and every other job's entry unchanged; and
the completed call still leaves every other job's entry unchanged. -/
theorem C8_regenerateFrame (b : Backend) (st : AppSt) (d u : String)
    (hu : st.uploadedImage = some u) (hne : u ≠ "") (hf : st.fatalError = none)
    (hp : jobPending st.images d = false) :
    (regenerateMark st d).images d =
      some ⟨ImageStatus.pending, (st.images d).bind GeneratedImage.url,
        (st.images d).bind GeneratedImage.error⟩
    ∧ (∀ d', d' ≠ d → (regenerateMark st d).images d' = st.images d')
    ∧ (regenerateMark st d).uploadedImage = st.uploadedImage
    ∧ (regenerateMark st d).generationStyle = st.generationStyle
    ∧ (regenerateMark st d).fatalError = st.fatalError
    ∧ (∀ d', d' ≠ d → (handleRegenerateDecade b st d).1.images d' = st.images d') := by
  refine ⟨?_, ?_, rfl, rfl, rfl, ?_⟩
  · cases hsd : st.images d <;> simp [regenerateMark, setJob_same, hsd]
  · intro d' hd'
    simp only [regenerateMark]
    exact setJob_other _ _ _ _ hd'
  · intro d' hd'
    rw [regen_run b st d u hu hne hf hp]
    show (recordOutcome (regenerateMark st d).images none d
      (generateDecadeImage b u (getPromptForDecade st.generationStyle d)).result).1 d' =
      st.images d'
    rw [recordOutcome_fst, setJob_other _ _ _ _ hd']
    simp only [regenerateMark]
    exact setJob_other _ _ _ _ hd'

/-- Witness for C8 at a concrete state with a finished `1950 ler` job: the
mark keeps the previous image, and the sibling entry is untouched. -/
theorem C8_witness :
    (regenerateMark c8DemoSt "1950 ler").images "1950 ler" =
      some ⟨ImageStatus.pending, some "u0", none⟩ ∧
      (regenerateMark c8DemoSt "1950 ler").images "1960 lar" = c8DemoSt.images "1960 lar" := by
  have h := C8_regenerateFrame textOnlyBackend c8DemoSt "1950 ler" "data:image/png;base64,AAA"
    rfl (by decide) rfl (by decide)
  exact ⟨h.1, h.2.1 "1960 lar" (by decide)⟩

/-- Claim C9 (confirmed): on an input string the data-URL regex rejects,
`generateDecadeImage` fails immediately with the fixed
invalid-image-data-URL message and issues no backend call. -/
theorem C9_invalidDataUrl (b : Backend) (s prompt : String) (h : parseDataUrl s = none) :
    generateDecadeImage b s prompt = ⟨Except.error invalidDataUrlMessage, [], []⟩ :=
  genImage_invalidUrl b s prompt h

/-- Witness for C9 at a concrete malformed input. -/
theorem C9_witness :
    generateDecadeImage textOnlyBackend "nonsense" "p" =
      ⟨Except.error invalidDataUrlMessage, [], []⟩ :=
  C9_invalidDataUrl textOnlyBackend "nonsense" "p" (by decide)

/-- Claim C10 (confirmed): every state the initial batch run can reach
keeps the worker pool at its fixed size 2, so at no point are more than 2
backend interactions outstanding simultaneously (each busy worker awaits
at most one backend call at a time). -/
theorem C10_concurrencyBound (outcome : String → Except String String) (f : Option String)
    (st : BatchSt) (hreach : BatchReach outcome (initBatch f) st) :
    busyCount st ≤ concurrencyLimit := by
  have hlen := (batchInv_reach outcome f st hreach).1
  calc busyCount st ≤ st.workers.length := List.length_filter_le _ _
    _ = concurrencyLimit := hlen

/-- Witness for C10 at the initial state of the batch. -/
theorem C10_witness : busyCount (initBatch none) ≤ concurrencyLimit :=
  C10_concurrencyBound demoOutcome none (initBatch none) Relation.ReflTransGen.refl
